import Mathlib

/-!
Shallow embedding of the AdarshYadav04/chatBot retrieval-augmented QA service
(files src/app/retriever.py, src/app/config.py, src/app/app.py), together with
theorems settling the frozen claims about its retrieval access layer,
orchestration and startup behaviour.

External collaborators (the Google embeddings client, the FAISS vector store,
the LLM, the filesystem) are modelled as oracles in an `Env` record; calls made
to them are counted in a `World` record so that "no I/O happened" is expressible
as equality of worlds.  Python exceptions are modelled by the `Exc` inductive
carrying a class tag, a message and an optional cause (the `from e` chain).
-/

namespace ChatBot

/-- Python exception classes that appear in the source: `ValueError`,
`FileNotFoundError`, the custom `RetrievalError`, and a catch-all for
exceptions raised inside the external providers. -/
inductive ExcClass where
  | valueError
  | fileNotFoundError
  | retrievalError
  | providerError
  deriving DecidableEq, Repr

/-- A Python exception value: class, message, and the `__cause__` set by
`raise ... from e` (`base` when no cause, `chained` when raised from another
exception). -/
inductive Exc where
  | base (cls : ExcClass) (msg : String)
  | chained (cls : ExcClass) (msg : String) (cause : Exc)
  deriving DecidableEq, Repr

/-- Build an exception from a class, message and optional cause. -/
def Exc.mk (cls : ExcClass) (msg : String) : Option Exc → Exc
  | none => .base cls msg
  | some e => .chained cls msg e

def Exc.cls : Exc → ExcClass
  | .base c _ => c
  | .chained c _ _ => c

def Exc.msg : Exc → String
  | .base _ m => m
  | .chained _ m _ => m

def Exc.cause : Exc → Option Exc
  | .base _ _ => none
  | .chained _ _ c => some c

/-- Python `str(e)` on these exceptions renders the message. -/
def Exc.str (e : Exc) : String := e.msg

/-- Opaque handle to a constructed GoogleGenerativeAIEmbeddings client. -/
structure EmbClient where
  id : Nat
  deriving DecidableEq, Repr

/-- Opaque handle to a loaded FAISS vector store. -/
structure VS where
  id : Nat
  deriving DecidableEq, Repr

/-- A retrieved document (langchain Document); only its text matters here. -/
structure Doc where
  page_content : String
  deriving DecidableEq, Repr

/-- The object returned by `vectorstore.as_retriever(search_type=...,
search_kwargs={"k": ...})`: a binding of the store and search parameters. -/
structure Retr where
  vs : VS
  search_type : String
  k : Int
  deriving DecidableEq, Repr

/-- Opaque handle to a constructed ChatGoogleGenerativeAI client. -/
structure LLMClient where
  id : Nat
  deriving DecidableEq, Repr

/-- Oracles for the external world: each effectful external call is a function
of how many calls of that kind happened before, so distinct calls may behave
differently (e.g. fail twice then succeed). `pathExists` is a snapshot of the
filesystem. -/
structure Env where
  embCtor : Nat → Except Exc EmbClient
  pathExists : String → Bool
  faissLoad : Nat → Except Exc VS
  search : Nat → Retr → String → Except Exc (List Doc)
  llmInit : Except Exc LLMClient

/-- Trace of external effects performed so far: call counters for each oracle,
instance constructions, and the sequence of `time.sleep` durations. -/
structure World where
  embCalls : Nat
  loadCalls : Nat
  searchCalls : Nat
  ctorCalls : Nat
  sleeps : List Rat
  deriving DecidableEq, Repr

def World.empty : World :=
  { embCalls := 0, loadCalls := 0, searchCalls := 0, ctorCalls := 0, sleeps := [] }

/-- The environment-derived configuration object (src/app/config.py,
class Settings): only the fields the modelled code reads. -/
structure Settings where
  GEMINI_API_KEY : String
  VECTORDB_PATH : String
  EMBEDDING_MODEL : String
  LLM_MODEL : String
  RETRIEVER_K : Int
  RETRIEVER_SEARCH_TYPE : String
  RETRIEVAL_TIMEOUT : Rat
  API_TIMEOUT : Rat
  LLM_TEMPERATURE : Rat
  APP_VERSION : String
  ENVIRONMENT : String
  deriving DecidableEq, Repr

/-- Python `str.strip()`: drop whitespace from both ends.  Defined on the
character list so that it evaluates inside the kernel. -/
def pyStrip (s : String) : String :=
  String.mk
    (((s.data.dropWhile Char.isWhitespace).reverse.dropWhile
      Char.isWhitespace).reverse)

/-- Python `x or d` for an optional string argument: `None` and `""` are falsy. -/
def pyOrStr (x : Option String) (d : String) : String :=
  match x with
  | some s => if s = "" then d else s
  | none => d

/-- Python `k or d` for an int: `0` is falsy, everything else (including
negative ints) is truthy. -/
def pyOrInt (x : Int) (d : Int) : Int :=
  if x = 0 then d else x

/-- Python `x or d` for an optional float: `None` and `0.0` are falsy. -/
def pyOrRat (x : Option Rat) (d : Rat) : Rat :=
  match x with
  | some r => if r = 0 then d else r
  | none => d

/-- The mutable state of a `VectorStoreRetriever` object
(src/app/retriever.py lines 48-86).  `_inited` models the source field
named `_initialized`. -/
structure VectorStoreRetriever where
  vectordb_path : String
  embedding_model : String
  api_key : String
  k : Int
  search_type : String
  timeout : Rat
  _embeddings : Option EmbClient
  _vectorstore : Option VS
  _retriever : Option Retr
  _inited : Bool
  deriving DecidableEq, Repr

/-- `VectorStoreRetriever.__init__` (retriever.py lines 53-86): resolve each
argument against `settings` with Python truthiness, then fail with
`ValueError` when no API key is available. -/
def VectorStoreRetriever.init (st : Settings)
    (vectordb_path embedding_model api_key : Option String)
    (k : Int) (search_type : String) (timeout : Option Rat) :
    Except Exc VectorStoreRetriever :=
  let path := pyOrStr vectordb_path st.VECTORDB_PATH
  let em := pyOrStr embedding_model st.EMBEDDING_MODEL
  let ak := pyOrStr api_key st.GEMINI_API_KEY
  let k2 := pyOrInt k st.RETRIEVER_K
  let stype := if search_type = "" then st.RETRIEVER_SEARCH_TYPE else search_type
  let tmo := pyOrRat timeout st.RETRIEVAL_TIMEOUT
  if ak = "" then
    .error (Exc.mk .valueError "API key is required for embeddings" none)
  else
    .ok { vectordb_path := path, embedding_model := em, api_key := ak, k := k2,
          search_type := stype, timeout := tmo, _embeddings := none,
          _vectorstore := none, _retriever := none, _inited := false }

/-- State threaded through the retriever methods: the object plus the world. -/
abbrev RState := VectorStoreRetriever × World

/-- Record a `time.sleep d` in the world trace. -/
def sleepR (d : Rat) : RState → RState
  | (s, w) => (s, { w with sleeps := w.sleeps ++ [d] })

/-- Rendering of `last_exception` in the retry wrapper's final message
(`None` when the loop never ran). -/
def lastExcStr : Option Exc → String
  | none => "None"
  | some e => e.str

/-- The `RetrievalError` raised by `retry_on_failure` after exhausting
retries (retriever.py line 43): message carries the attempt count and the
rendered last exception, cause is the last exception. -/
def retryExhausted (maxRetries : Nat) (last : Option Exc) : Exc :=
  Exc.mk .retrievalError
    ("Failed after " ++ toString maxRetries ++ " attempts: " ++ lastExcStr last)
    last

/-- Loop of the `retry_on_failure` decorator (retriever.py lines 24-45).
`remaining` counts attempts still allowed, `attempt` is the 0-based index of
the current attempt; between a failed attempt and the next one the wrapper
sleeps `delay * (attempt + 1)`. -/
def retryAux {α : Type} (f : RState → RState × Except Exc α)
    (maxRetries : Nat) (delay : Rat) :
    Nat → Nat → Option Exc → RState → RState × Except Exc α
  | 0, _, last, s => (s, .error (retryExhausted maxRetries last))
  | remaining + 1, attempt, _, s =>
    match f s with
    | (s2, .ok a) => (s2, .ok a)
    | (s2, .error e) =>
      if remaining = 0 then
        (s2, .error (retryExhausted maxRetries (some e)))
      else
        retryAux f maxRetries delay remaining (attempt + 1) (some e)
          (sleepR (delay * ((attempt : Rat) + 1)) s2)

/-- The `retry_on_failure(max_retries, delay)` decorator applied to a
stateful operation. -/
def retry_on_failure {α : Type} (maxRetries : Nat) (delay : Rat)
    (f : RState → RState × Except Exc α) (s : RState) : RState × Except Exc α :=
  retryAux f maxRetries delay maxRetries 0 none s

/-- Body of `_initialize_embeddings` (retriever.py lines 88-102), without its
decorator: construct the embeddings client if not cached, rewrapping a
constructor failure into a `RetrievalError` with the original as cause. -/
def init_embeddings_body (env : Env) : RState → RState × Except Exc EmbClient
  | (s, w) =>
    match s._embeddings with
    | some e => ((s, w), .ok e)
    | none =>
      match env.embCtor w.embCalls with
      | .ok c =>
        (({ s with _embeddings := some c }, { w with embCalls := w.embCalls + 1 }),
         .ok c)
      | .error e =>
        ((s, { w with embCalls := w.embCalls + 1 }),
         .error (Exc.mk .retrievalError
           ("Failed to initialize embeddings: " ++ e.str) (some e)))

/-- `_initialize_embeddings`, decorated with
`retry_on_failure(max_retries=3, delay=1.0)`. -/
def init_embeddings (env : Env) : RState → RState × Except Exc EmbClient :=
  retry_on_failure 3 1 (init_embeddings_body env)

/-- Body of `_load_vectorstore` (retriever.py lines 104-144), without its
decorator: validate the index directory and the two artifact files (raising
`FileNotFoundError` outside the try block), then initialize embeddings and
load FAISS, rewrapping failures of those two steps into `RetrievalError`. -/
def load_vectorstore_body (env : Env) : RState → RState × Except Exc VS
  | (s, w) =>
    match s._vectorstore with
    | some v => ((s, w), .ok v)
    | none =>
      if env.pathExists s.vectordb_path = false then
        ((s, w), .error (Exc.mk .fileNotFoundError
          ("Vector database not found at: " ++ s.vectordb_path ++
           ". Please run ingestion first.") none))
      else if env.pathExists (s.vectordb_path ++ "/index.faiss") = false then
        ((s, w), .error (Exc.mk .fileNotFoundError
          ("Required vector database file not found: " ++ s.vectordb_path ++
           "/index.faiss") none))
      else if env.pathExists (s.vectordb_path ++ "/index.pkl") = false then
        ((s, w), .error (Exc.mk .fileNotFoundError
          ("Required vector database file not found: " ++ s.vectordb_path ++
           "/index.pkl") none))
      else
        match init_embeddings env (s, w) with
        | (sw2, .error e) =>
          (sw2, .error (Exc.mk .retrievalError
            ("Failed to load vector store: " ++ e.str) (some e)))
        | ((s2, w2), .ok _) =>
          match env.faissLoad w2.loadCalls with
          | .ok v =>
            (({ s2 with _vectorstore := some v, _inited := true },
              { w2 with loadCalls := w2.loadCalls + 1 }), .ok v)
          | .error e =>
            ((s2, { w2 with loadCalls := w2.loadCalls + 1 }),
             .error (Exc.mk .retrievalError
               ("Failed to load vector store: " ++ e.str) (some e)))

/-- `_load_vectorstore`, decorated with
`retry_on_failure(max_retries=2, delay=0.5)`. -/
def load_vectorstore (env : Env) : RState → RState × Except Exc VS :=
  retry_on_failure 2 (1/2) (load_vectorstore_body env)

/-- Method `VectorStoreRetriever.get_retriever` (retriever.py lines 146-165):
cache and return a retriever bound to the loaded store with the object's
`k` and `search_type`. -/
def VectorStoreRetriever.get_retriever (env : Env) :
    RState → RState × Except Exc Retr
  | (s, w) =>
    match s._retriever with
    | some r => ((s, w), .ok r)
    | none =>
      match load_vectorstore env (s, w) with
      | (sw2, .error e) => (sw2, .error e)
      | ((s2, w2), .ok v) =>
        let r : Retr := { vs := v, search_type := s2.search_type, k := s2.k }
        (({ s2 with _retriever := some r }, w2), .ok r)

/-- One `get_relevant_documents` call against the search oracle, counting it. -/
def stepSearch (env : Env) (r : Retr) (query : String) :
    RState → RState × Except Exc (List Doc)
  | (s, w) =>
    match env.search w.searchCalls r query with
    | .ok docs => ((s, { w with searchCalls := w.searchCalls + 1 }), .ok docs)
    | .error e => ((s, { w with searchCalls := w.searchCalls + 1 }), .error e)

/-- The try-block of `retrieve_documents` (retriever.py lines 191-214): get
the cached retriever; when an override `k` differing from the bound `self.k`
is given, build a temporary retriever from `self._vectorstore` for this call
only; then search. -/
def retrieve_body (env : Env) (query : String) (k : Option Int) :
    RState → RState × Except Exc (List Doc)
  | (s, w) =>
    match VectorStoreRetriever.get_retriever env (s, w) with
    | (sw2, .error e) => (sw2, .error e)
    | ((s2, w2), .ok retr) =>
      match k with
      | some kv =>
        if kv ≠ s2.k then
          match s2._vectorstore with
          | none =>
            ((s2, w2), .error (Exc.mk .providerError
              "AttributeError: NoneType object has no attribute as_retriever" none))
          | some v =>
            stepSearch env { vs := v, search_type := s2.search_type, k := kv }
              query (s2, w2)
        else stepSearch env retr query (s2, w2)
      | none => stepSearch env retr query (s2, w2)

/-- The `except Exception` clause of `retrieve_documents` (lines 216-222):
any exception escaping the try-block is re-raised as `RetrievalError` with
the original as cause. -/
def wrapTry : RState × Except Exc (List Doc) → RState × Except Exc (List Doc)
  | (sw, .ok d) => (sw, .ok d)
  | (sw, .error e) =>
    (sw, .error (Exc.mk .retrievalError
      ("Failed to retrieve documents: " ++ e.str) (some e)))

/-- `retrieve_documents` (retriever.py lines 167-222): validate the query and
the optional `k` before doing anything, then run the try-block under the
catch-all rewrap.  The source guard `not query or not query.strip()` is
equivalent to the stripped query being empty, since stripping the empty
string is empty. -/
def retrieve_documents (env : Env) (query : String) (k : Option Int)
    (sw : RState) : RState × Except Exc (List Doc) :=
  if pyStrip query = "" then
    (sw, .error (Exc.mk .valueError "Query cannot be empty" none))
  else
    match k with
    | some kv =>
      if kv < 1 ∨ kv > 100 then
        (sw, .error (Exc.mk .valueError "k must be between 1 and 100" none))
      else wrapTry (retrieve_body env query k sw)
    | none => wrapTry (retrieve_body env query k sw)

/-- `Settings.validate` (config.py lines 62-86): collect every configuration
error and raise a single `ValueError` listing them when any exists. -/
def Settings.validate (st : Settings) (pathExists : String → Bool) :
    Except Exc Unit :=
  let errors : List String :=
    (if st.GEMINI_API_KEY = "" then
       ["GEMINI_API_KEY environment variable is required"] else [])
    ++ (if pathExists st.VECTORDB_PATH = false then
          ["Vector database path does not exist: " ++ st.VECTORDB_PATH] else [])
    ++ (if st.RETRIEVER_K < 1 ∨ st.RETRIEVER_K > 100 then
          ["RETRIEVER_K must be between 1 and 100"] else [])
    ++ (if st.RETRIEVAL_TIMEOUT ≤ 0 then
          ["RETRIEVAL_TIMEOUT must be greater than 0"] else [])
    ++ (if st.API_TIMEOUT ≤ 0 then
          ["API_TIMEOUT must be greater than 0"] else [])
    ++ (if st.LLM_TEMPERATURE < 0 ∨ st.LLM_TEMPERATURE > 2 then
          ["LLM_TEMPERATURE must be between 0 and 2"] else [])
  if errors = [] then .ok ()
  else
    .error (Exc.mk .valueError
      ("Configuration validation failed:\n" ++
        String.intercalate "\n" (errors.map (fun e => "  - " ++ e))) none)

/-- Module-import behaviour of app.py lines 28-32: `validate_settings()` is
called inside try/except and a `ValueError` is only logged as a warning; the
returned value is the warning text (if any) — the import always proceeds. -/
def settings_validation_warning (st : Settings) (pathExists : String → Bool) :
    Option String :=
  match Settings.validate st pathExists with
  | .ok _ => none
  | .error e => some ("Settings validation: " ++ e.str)

/-- Global module state of retriever.py: the `_retriever_instance` singleton,
together with the world trace. -/
abbrev GState := Option VectorStoreRetriever × World

/-- Module-level `get_retriever` (retriever.py lines 239-260), sequential
view: construct the singleton when absent (wrapping a constructor failure
into `RetrievalError`), then delegate to the instance method.  The
construction is counted in `World.ctorCalls`. -/
def get_retriever (st : Settings) (env : Env) : GState → GState × Except Exc Retr
  | (inst, w) =>
    match inst with
    | some i =>
      match VectorStoreRetriever.get_retriever env (i, w) with
      | ((i2, w2), r) => ((some i2, w2), r)
    | none =>
      match VectorStoreRetriever.init st none none none 4 "similarity" none with
      | .error e =>
        ((none, { w with ctorCalls := w.ctorCalls + 1 }),
         .error (Exc.mk .retrievalError
           ("Failed to initialize retriever: " ++ e.str) (some e)))
      | .ok i =>
        match VectorStoreRetriever.get_retriever env
            (i, { w with ctorCalls := w.ctorCalls + 1 }) with
        | ((i2, w2), r) => ((some i2, w2), r)

/-- The RAG chain built at startup (app.py lines 98-100): a binding of the
retriever and the LLM client (prompt plumbing is opaque). -/
structure Chain where
  retriever : Retr
  llm : LLMClient
  deriving DecidableEq, Repr

/-- `initialize_rag_chain` (app.py lines 57-106): obtain the global
retriever, construct the LLM client, build the chain; any failure is logged
and re-raised unchanged. -/
def init_rag_chain (st : Settings) (env : Env) (g : GState) :
    GState × Except Exc Chain :=
  match get_retriever st env g with
  | (g2, .error e) => (g2, .error e)
  | (g2, .ok r) =>
    match env.llmInit with
    | .error e => (g2, .error e)
    | .ok llm => (g2, .ok { retriever := r, llm := llm })

/-- Process-wide state of the FastAPI app module: the `retrieval_chain`
global plus the retriever module's global state. -/
structure AppGlobal where
  retrieval_chain : Option Chain
  inst : Option VectorStoreRetriever
  world : World
  deriving DecidableEq, Repr

/-- Startup half of `lifespan` (app.py lines 39-51): run
`initialize_rag_chain`; on failure the exception is re-raised, so the app
never starts serving. -/
def lifespan_startup (st : Settings) (env : Env) (g : AppGlobal) :
    AppGlobal × Except Exc Unit :=
  match init_rag_chain st env (g.inst, g.world) with
  | ((i2, w2), .ok c) =>
    ({ retrieval_chain := some c, inst := i2, world := w2 }, .ok ())
  | ((i2, w2), .error e) =>
    ({ retrieval_chain := g.retrieval_chain, inst := i2, world := w2 }, .error e)

/-- Whole-process startup: module import (settings validation failures are
swallowed as warnings) followed by the lifespan startup from a fresh state.
The process accepts traffic exactly when the result is `.ok`. -/
def app_start (st : Settings) (env : Env) : AppGlobal × Except Exc Unit :=
  let _warn := settings_validation_warning st env.pathExists
  lifespan_startup st env
    { retrieval_chain := none, inst := none, world := World.empty }

/-- An HTTP response: status code and the top-level keys/values of the JSON
body. -/
structure HttpResponse where
  status : Nat
  body : List (String × String)
  deriving DecidableEq, Repr

/-- Top-level JSON keys of a response body. -/
def HttpResponse.keys (r : HttpResponse) : List String := r.body.map Prod.fst

/-- Pydantic validation of `ChatRequest.question` (app.py lines 145-161):
the `Field(min_length=1, max_length=1000)` constraints, then the
`validate_question` after-validator which strips and rejects blank input. -/
def parse_chat_question (raw : String) : Except Exc String :=
  if raw.length < 1 then
    .error (Exc.mk .valueError "String should have at least 1 character" none)
  else if raw.length > 1000 then
    .error (Exc.mk .valueError "String should have at most 1000 characters" none)
  else
    let question := pyStrip raw
    if question = "" then
      .error (Exc.mk .valueError "Question cannot be empty" none)
    else .ok question

/-- Output dictionary of `retrieval_chain.invoke`. -/
abbrev ChainOutput := List (String × String)

/-- Python `dict.get`. -/
def dictGet (d : ChainOutput) (key : String) : Option String :=
  (d.find? (fun p => p.1 = key)).map Prod.snd

/-- Python `a or b` over optional strings where `None` and `""` are falsy. -/
def pyOrStrOpt : Option String → Option String → Option String
  | some s, b => if s = "" then b else some s
  | none, b => b

/-- Answer extraction (app.py lines 348-353):
`result.get("answer") or result.get("output_text") or result.get("output")
or str(result)`; `resultStr` stands for `str(result)`. -/
def extract_answer (result : ChainOutput) (resultStr : String) : String :=
  match pyOrStrOpt (dictGet result "answer")
      (pyOrStrOpt (dictGet result "output_text")
        (pyOrStrOpt (dictGet result "output") none)) with
  | some a => a
  | none => resultStr

/-- Fallback answer substituted for a blank chain answer (app.py line 357). -/
def chat_fallback : String :=
  "I apologize, but I couldn\x27t generate a response. Please try rephrasing your question."

/-- The `POST /chat` endpoint (app.py lines 303-374) as seen through the
framework.  Modelled from the external framework semantics: FastAPI converts
a pydantic body-validation failure into a `RequestValidationError`, which its
pre-registered handler answers with status 422 and a JSON body whose only
top-level key is `detail`; the application's `ValueError` handler (app.py
lines 185-192, status 400 with an `error` key) is never consulted for body
validation because `RequestValidationError` is not a `ValueError` under
pydantic v2 and has its own exact-class handler.  Past validation the
endpoint follows app.py: 503 when the chain is missing, 503 for a
`RetrievalError` from the chain, 500 for any other exception (all raised as
`HTTPException`, whose body is `{"detail": ...}`), otherwise 200 with the
extracted (or fallback) answer. -/
def chat_endpoint (chain : Option Chain)
    (invoke : String → Except Exc ChainOutput) (raw : String) : HttpResponse :=
  match parse_chat_question raw with
  | .error _ =>
    { status := 422, body := [("detail", "request validation failed")] }
  | .ok q =>
    match chain with
    | none =>
      { status := 503,
        body := [("detail", "RAG chain not initialized. Please check server logs.")] }
    | some _ =>
      match invoke q with
      | .error e =>
        if e.cls = ExcClass.retrievalError then
          { status := 503,
            body := [("detail", "Unable to retrieve relevant information. Please try again later.")] }
        else
          { status := 500,
            body := [("detail", "Error processing your question. Please try again.")] }
      | .ok result =>
        let answer0 := extract_answer result (toString result)
        let answer := if pyStrip answer0 = "" then chat_fallback else answer0
        { status := 200, body := [("answer", answer)] }

/-- Body of the `/health` response model (app.py lines 169-174). -/
structure HealthResponse where
  status : String
  message : String
  version : String
  environment : String
  deriving DecidableEq, Repr

/-- `GET /health` (app.py lines 240-284): `unhealthy` when the chain is
missing; otherwise probe `get_retriever()` — `degraded` when it raises,
`healthy` when it succeeds.  The probe goes through the module-level
singleton, so the updated module state is returned alongside the response. -/
def health_check (st : Settings) (env : Env) (g : AppGlobal) :
    AppGlobal × HealthResponse :=
  match g.retrieval_chain with
  | none =>
    (g, { status := "unhealthy", message := "RAG chain not initialized",
          version := st.APP_VERSION, environment := st.ENVIRONMENT })
  | some _ =>
    match get_retriever st env (g.inst, g.world) with
    | ((i2, w2), .error _) =>
      ({ g with inst := i2, world := w2 },
       { status := "degraded", message := "Retriever check failed",
         version := st.APP_VERSION, environment := st.ENVIRONMENT })
    | ((i2, w2), .ok _) =>
      ({ g with inst := i2, world := w2 },
       { status := "healthy", message := "Service is operational",
         version := st.APP_VERSION, environment := st.ENVIRONMENT })

/-- Body of the `/metrics` response model (app.py lines 177-181). -/
structure MetricsResponse where
  uptime_seconds : Rat
  status : String
  version : String
  deriving DecidableEq, Repr

/-- `GET /metrics` (app.py lines 287-300): uptime plus a status derived from
whether the chain exists; it reads the state and returns only a response. -/
def metrics (st : Settings) (now start : Rat) (g : AppGlobal) : MetricsResponse :=
  { uptime_seconds := now - start,
    status := if g.retrieval_chain.isSome then "healthy" else "unhealthy",
    version := st.APP_VERSION }

/-!
Interleaving model of two threads concurrently calling the module-level
`get_retriever()` for the first time (retriever.py lines 239-260 and the
instance methods it runs).  Each source line the function executes is one
atomic step; a thread's program counter walks:

* `g0` — first unsynchronized read of `_retriever_instance`;
* `g1` — acquire `_instance_lock` (a thread whose turn comes while the lock
  is held makes no progress, modelling blocking);
* `g2` — second read of `_retriever_instance` under the lock (the
  double-check);
* `g3` — run `VectorStoreRetriever()`; on failure the `with` block releases
  the lock and the wrapped `RetrievalError` propagates;
* `g4` — leave the `with` block, releasing the lock;
* `m0`–`m4` — `instance.get_retriever()`, which the source runs OUTSIDE the
  lock: check the cached `_retriever` (`m0`), check the cached
  `_vectorstore` (`m1`), validate paths and obtain the embeddings client
  (`m2`), call `FAISS.load_local` and store the result (`m3`), build and
  store the retriever (`m4`).

The retry wrappers around the load steps are not expanded here: the
theorems about this model only use environments on which every external
call succeeds, and on such environments the wrappers perform exactly one
call.  Unreachable defensive branches finish with a `providerError`.
-/

instance exceptDecEq {ε α : Type} [DecidableEq ε] [DecidableEq α] :
    DecidableEq (Except ε α) := fun x y =>
  match x, y with
  | .ok a, .ok b =>
    if h : a = b then isTrue (by rw [h]) else isFalse (by simp [h])
  | .error a, .error b =>
    if h : a = b then isTrue (by rw [h]) else isFalse (by simp [h])
  | .ok _, .error _ => isFalse (by simp)
  | .error _, .ok _ => isFalse (by simp)

/-- Program counter of one thread in the concurrent model. -/
inductive TPC where
  | g0 | g1 | g2 | g3 | g4
  | m0 | m1 | m2 | m3 | m4
  | ret (r : Except Exc Retr)
  deriving DecidableEq, Repr

/-- Shared state of the two-thread model. -/
structure CState where
  inst : Option VectorStoreRetriever
  lock : Option (Fin 2)
  world : World
  pcs : Fin 2 → TPC
  locals : Fin 2 → Option VS

/-- Update one thread's program counter. -/
def setPC (t : Fin 2) (p : TPC) (pcs : Fin 2 → TPC) : Fin 2 → TPC :=
  fun u => if u = t then p else pcs u

/-- Update one thread's local `vectorstore` variable. -/
def setLocal (t : Fin 2) (v : Option VS) (ls : Fin 2 → Option VS) :
    Fin 2 → Option VS :=
  fun u => if u = t then v else ls u

/-- Initial state: no instance, lock free, both threads about to enter
`get_retriever()`. -/
def cInit : CState :=
  { inst := none, lock := none, world := World.empty,
    pcs := fun _ => TPC.g0, locals := fun _ => none }

/-- Finish thread `t` by raising exception `e` out of `get_retriever`. -/
def cRaise (t : Fin 2) (e : Exc) (c : CState) : CState :=
  { c with pcs := setPC t (TPC.ret (Except.error e)) c.pcs }

/-- Finish thread `t` normally with retriever `r`. -/
def cReturn (t : Fin 2) (r : Retr) (c : CState) : CState :=
  { c with pcs := setPC t (TPC.ret (Except.ok r)) c.pcs }

/-- Move thread `t` to program counter `p`. -/
def cGoto (t : Fin 2) (p : TPC) (c : CState) : CState :=
  { c with pcs := setPC t p c.pcs }

/-- Defensive exception for branches unreachable in the modelled runs. -/
def cMissing : Exc := Exc.mk .providerError "instance missing" none

/-- Thread step at `m0`: check the instance's cached `_retriever`. -/
def cstepM0 (t : Fin 2) (c : CState) (i : VectorStoreRetriever) : CState :=
  match i._retriever with
  | some r => cReturn t r c
  | none => cGoto t .m1 c

/-- Thread step at `m1`: check the instance's cached `_vectorstore`. -/
def cstepM1 (t : Fin 2) (c : CState) (i : VectorStoreRetriever) : CState :=
  match i._vectorstore with
  | some v => cGoto t .m4 { c with locals := setLocal t (some v) c.locals }
  | none => cGoto t .m2 c

/-- Thread step at `m2`: validate the index paths and obtain the embeddings
client (one call; the retry wrapper is not expanded because the theorems
below only use environments on which these operations succeed). -/
def cstepM2 (env : Env) (t : Fin 2) (c : CState) (i : VectorStoreRetriever) :
    CState :=
  if env.pathExists i.vectordb_path = false then
    cRaise t
      (Exc.mk .fileNotFoundError
        ("Vector database not found at: " ++ i.vectordb_path ++
         ". Please run ingestion first.") none) c
  else if env.pathExists (i.vectordb_path ++ "/index.faiss") = false then
    cRaise t
      (Exc.mk .fileNotFoundError
        ("Required vector database file not found: " ++ i.vectordb_path ++
         "/index.faiss") none) c
  else if env.pathExists (i.vectordb_path ++ "/index.pkl") = false then
    cRaise t
      (Exc.mk .fileNotFoundError
        ("Required vector database file not found: " ++ i.vectordb_path ++
         "/index.pkl") none) c
  else
    match i._embeddings with
    | some _ => cGoto t .m3 c
    | none =>
      match env.embCtor c.world.embCalls with
      | .ok e =>
        cGoto t .m3
          { c with inst := some { i with _embeddings := some e },
                   world := { c.world with embCalls := c.world.embCalls + 1 } }
      | .error e =>
        cRaise t
          (Exc.mk .retrievalError
            ("Failed to initialize embeddings: " ++ e.str) (some e))
          { c with world := { c.world with embCalls := c.world.embCalls + 1 } }

/-- Thread step at `m3`: call `FAISS.load_local` and store the result. -/
def cstepM3 (env : Env) (t : Fin 2) (c : CState) (i : VectorStoreRetriever) :
    CState :=
  match env.faissLoad c.world.loadCalls with
  | .ok v =>
    cGoto t .m4
      { c with inst := some { i with _vectorstore := some v, _inited := true },
               world := { c.world with loadCalls := c.world.loadCalls + 1 },
               locals := setLocal t (some v) c.locals }
  | .error e =>
    cRaise t
      (Exc.mk .retrievalError
        ("Failed to load vector store: " ++ e.str) (some e))
      { c with world := { c.world with loadCalls := c.world.loadCalls + 1 } }

/-- Thread step at `m4`: build the retriever from the local vectorstore and
store it on the shared instance. -/
def cstepM4 (t : Fin 2) (c : CState) (i : VectorStoreRetriever) : CState :=
  match c.locals t with
  | some v =>
    let r : Retr := { vs := v, search_type := i.search_type, k := i.k }
    cReturn t r { c with inst := some { i with _retriever := some r } }
  | none => cRaise t (Exc.mk .providerError "state missing" none) c

/-- One atomic step of thread `t`. -/
def cstep (st : Settings) (env : Env) (t : Fin 2) (c : CState) : CState :=
  match c.pcs t with
  | .g0 => if c.inst.isSome then cGoto t .m0 c else cGoto t .g1 c
  | .g1 =>
    match c.lock with
    | none => cGoto t .g2 { c with lock := some t }
    | some _ => c
  | .g2 => if c.inst.isSome then cGoto t .g4 c else cGoto t .g3 c
  | .g3 =>
    match VectorStoreRetriever.init st none none none 4 "similarity" none with
    | .ok i =>
      cGoto t .g4
        { c with inst := some i,
                 world := { c.world with ctorCalls := c.world.ctorCalls + 1 } }
    | .error e =>
      cRaise t
        (Exc.mk .retrievalError ("Failed to initialize retriever: " ++ e.str)
          (some e))
        { c with lock := none,
                 world := { c.world with ctorCalls := c.world.ctorCalls + 1 } }
  | .g4 => cGoto t .m0 { c with lock := none }
  | .m0 =>
    match c.inst with
    | none => cRaise t cMissing c
    | some i => cstepM0 t c i
  | .m1 =>
    match c.inst with
    | none => cRaise t cMissing c
    | some i => cstepM1 t c i
  | .m2 =>
    match c.inst with
    | none => cRaise t cMissing c
    | some i => cstepM2 env t c i
  | .m3 =>
    match c.inst with
    | none => cRaise t cMissing c
    | some i => cstepM3 env t c i
  | .m4 =>
    match c.inst with
    | none => cRaise t cMissing c
    | some i => cstepM4 t c i
  | .ret _ => c

/-- Run a schedule (which thread steps at each instant). -/
def crun (st : Settings) (env : Env) : List (Fin 2) → CState → CState
  | [], c => c
  | t :: rest, c => crun st env rest (cstep st env t c)

/-- Settings fixture with every field valid. -/
def stOk : Settings :=
  { GEMINI_API_KEY := "test-key", VECTORDB_PATH := "./vectordb",
    EMBEDDING_MODEL := "gemini-embedding-001", LLM_MODEL := "gemini-2.5-flash",
    RETRIEVER_K := 4, RETRIEVER_SEARCH_TYPE := "similarity",
    RETRIEVAL_TIMEOUT := 30, API_TIMEOUT := 60, LLM_TEMPERATURE := 1,
    APP_VERSION := "1.0.0", ENVIRONMENT := "production" }

/-- Settings fixture with a present credential but `RETRIEVER_K = 500`,
outside the documented 1-100 range. -/
def stBadK : Settings := { stOk with RETRIEVER_K := 500 }

/-- Environment fixture on which every external call succeeds. -/
def envOk : Env :=
  { embCtor := fun n => .ok ⟨n⟩, pathExists := fun _ => true,
    faissLoad := fun n => .ok ⟨n⟩,
    search := fun _ _ _ => .ok [⟨"chunk"⟩], llmInit := .ok ⟨0⟩ }

/-- Environment fixture whose filesystem is empty: the index directory does
not exist. -/
def envNoIndex : Env := { envOk with pathExists := fun _ => false }

/-! Fixtures shared by the theorems below. -/

/-- A freshly constructed retriever object (all caches empty). -/
def sFresh : VectorStoreRetriever :=
  { vectordb_path := "./vectordb", embedding_model := "gemini-embedding-001",
    api_key := "test-key", k := 4, search_type := "similarity", timeout := 30,
    _embeddings := none, _vectorstore := none, _retriever := none,
    _inited := false }

/-- A distinct provider error for each call index. -/
def errfW : Nat → Exc := fun n => Exc.base .providerError ("boom " ++ toString n)

/-- Environment whose embeddings constructor always fails. -/
def envFailEmb : Env := { envOk with embCtor := fun n => .error (errfW n) }

/-- Environment whose similarity search always fails. -/
def envSearchFail : Env :=
  { envOk with search := fun _ _ _ => .error (Exc.base .providerError "faiss blew up") }

/-- A loaded vector store handle. -/
def vsW : VS := ⟨7⟩

/-- The retriever cached on `sReady`. -/
def retrW : Retr := { vs := vsW, search_type := "similarity", k := 4 }

/-- A fully initialized retriever object (all caches populated). -/
def sReady : VectorStoreRetriever :=
  { sFresh with _embeddings := some ⟨0⟩, _vectorstore := some vsW, _retriever := some retrW, _inited := true }

/-- C1: the two retryable operations retry with linear backoff.  When the
embeddings constructor fails at every attempt, `_initialize_embeddings`
makes exactly 3 attempts, sleeping `1.0 * (attempt+1)` between consecutive
attempts (so sleeps `[1, 2]`), and raises a single `RetrievalError` whose
message carries the attempt count 3 and whose cause is the error raised by
the last attempt; when `FAISS.load_local` fails at every attempt,
`_load_vectorstore` makes exactly 2 attempts, sleeps `[0.5]`, and raises a
single `RetrievalError` carrying attempt count 2 and the last error as
cause. -/
theorem C1_retry_linear_backoff :
    (∀ (env : Env) (errf : Nat → Exc) (s : VectorStoreRetriever) (w : World),
        s._embeddings = none →
        (∀ n, env.embCtor n = .error (errf n)) →
        init_embeddings env (s, w) =
          ((s, { w with embCalls := w.embCalls + 3, sleeps := w.sleeps ++ [1, 2] }),
           .error (Exc.mk .retrievalError
             ("Failed after " ++ toString 3 ++ " attempts: " ++
              ("Failed to initialize embeddings: " ++ (errf (w.embCalls + 2)).str))
             (some (Exc.mk .retrievalError
               ("Failed to initialize embeddings: " ++ (errf (w.embCalls + 2)).str)
               (some (errf (w.embCalls + 2)))))))) ∧
    (∀ (env : Env) (errf : Nat → Exc) (c : EmbClient) (s : VectorStoreRetriever)
        (w : World),
        s._vectorstore = none → s._embeddings = some c →
        env.pathExists s.vectordb_path = true →
        env.pathExists (s.vectordb_path ++ "/index.faiss") = true →
        env.pathExists (s.vectordb_path ++ "/index.pkl") = true →
        (∀ n, env.faissLoad n = .error (errf n)) →
        load_vectorstore env (s, w) =
          ((s, { w with loadCalls := w.loadCalls + 2, sleeps := w.sleeps ++ [1/2] }),
           .error (Exc.mk .retrievalError
             ("Failed after " ++ toString 2 ++ " attempts: " ++
              ("Failed to load vector store: " ++ (errf (w.loadCalls + 1)).str))
             (some (Exc.mk .retrievalError
               ("Failed to load vector store: " ++ (errf (w.loadCalls + 1)).str)
               (some (errf (w.loadCalls + 1)))))))) := by
  constructor
  · intro env errf s w hemb hfail
    simp only [init_embeddings, retry_on_failure]
    simp only [retryAux, init_embeddings_body, hemb, hfail, sleepR, retryExhausted,
      lastExcStr, Exc.str, Exc.msg, Exc.mk]
    norm_num [List.append_assoc]
  · intro env errf c s w hvs hemb hp1 hp2 hp3 hfail
    obtain ⟨p0, e0, a0, k0, st0, t0, semb, svs, sret, sini⟩ := s
    simp only at hvs hemb hp1 hp2 hp3
    subst hvs
    subst hemb
    simp only [load_vectorstore, retry_on_failure, retryAux, load_vectorstore_body,
      init_embeddings, init_embeddings_body, sleepR, retryExhausted, lastExcStr,
      Exc.str, Exc.msg, Exc.mk, hfail]
    simp [hp1, hp2, hp3, List.append_assoc]

/-- Witness for C1 at a concrete environment whose embeddings constructor
always fails. -/
theorem C1_retry_linear_backoff_witness :
    sFresh._embeddings = none ∧
    init_embeddings envFailEmb (sFresh, World.empty) =
      ((sFresh, { World.empty with embCalls := World.empty.embCalls + 3, sleeps := World.empty.sleeps ++ [1, 2] }),
       .error (Exc.mk .retrievalError
         ("Failed after " ++ toString 3 ++ " attempts: " ++
          ("Failed to initialize embeddings: " ++ (errfW (World.empty.embCalls + 2)).str))
         (some (Exc.mk .retrievalError
           ("Failed to initialize embeddings: " ++ (errfW (World.empty.embCalls + 2)).str)
           (some (errfW (World.empty.embCalls + 2))))))) :=
  ⟨rfl, C1_retry_linear_backoff.1 envFailEmb errfW sFresh World.empty rfl (fun _ => rfl)⟩

/-- C2 counterexample: with the index directory missing, `_load_vectorstore`
does NOT fail immediately with a `FileNotFoundError`: its retry wrapper
retries (one sleep is recorded) and the escaping error is a
`RetrievalError` (class `retrievalError`, not `fileNotFoundError`) wrapping
the `FileNotFoundError`.  No embedding or load I/O happens on either
attempt. -/
theorem C2_notfound_counterexample :
    (load_vectorstore envNoIndex (sFresh, World.empty)).2 =
      .error (Exc.mk .retrievalError
        ("Failed after " ++ toString 2 ++ " attempts: " ++
         "Vector database not found at: ./vectordb. Please run ingestion first.")
        (some (Exc.mk .fileNotFoundError
          "Vector database not found at: ./vectordb. Please run ingestion first."
          none))) ∧
    (Exc.mk (.retrievalError)
        ("Failed after " ++ toString 2 ++ " attempts: " ++
         "Vector database not found at: ./vectordb. Please run ingestion first.")
        (some (Exc.mk .fileNotFoundError
          "Vector database not found at: ./vectordb. Please run ingestion first."
          none))).cls ≠ ExcClass.fileNotFoundError ∧
    (load_vectorstore envNoIndex (sFresh, World.empty)).1.2.sleeps ≠ [] ∧
    (load_vectorstore envNoIndex (sFresh, World.empty)).1.2.loadCalls = 0 ∧
    (load_vectorstore envNoIndex (sFresh, World.empty)).1.2.embCalls = 0 := by
  refine ⟨by decide, by decide, by decide, by decide, by decide⟩

/-- C2 amended: when the index directory, the `index.faiss` artifact or the
`index.pkl` metadata sidecar is missing, each attempt of the load body
raises a distinct `FileNotFoundError` naming the missing path (for the
directory, telling the user to run ingestion), before any embedding-client
or index I/O; but the retry wrapper still retries the load (2 attempts, one
recorded sleep of 0.5) and the error that finally escapes is a
`RetrievalError` carrying the `FileNotFoundError` as cause. -/
theorem C2_notfound_amended :
    (∀ (env : Env) (s : VectorStoreRetriever) (w : World),
        s._vectorstore = none →
        env.pathExists s.vectordb_path = false →
        load_vectorstore env (s, w) =
          ((s, { w with sleeps := w.sleeps ++ [1/2] }),
           .error (Exc.mk .retrievalError
             ("Failed after " ++ toString 2 ++ " attempts: " ++
              ("Vector database not found at: " ++ s.vectordb_path ++
               ". Please run ingestion first."))
             (some (Exc.mk .fileNotFoundError
               ("Vector database not found at: " ++ s.vectordb_path ++
                ". Please run ingestion first.") none))))) ∧
    (∀ (env : Env) (s : VectorStoreRetriever) (w : World),
        s._vectorstore = none →
        env.pathExists s.vectordb_path = true →
        env.pathExists (s.vectordb_path ++ "/index.faiss") = false →
        load_vectorstore env (s, w) =
          ((s, { w with sleeps := w.sleeps ++ [1/2] }),
           .error (Exc.mk .retrievalError
             ("Failed after " ++ toString 2 ++ " attempts: " ++
              ("Required vector database file not found: " ++ s.vectordb_path ++
               "/index.faiss"))
             (some (Exc.mk .fileNotFoundError
               ("Required vector database file not found: " ++ s.vectordb_path ++
                "/index.faiss") none))))) ∧
    (∀ (env : Env) (s : VectorStoreRetriever) (w : World),
        s._vectorstore = none →
        env.pathExists s.vectordb_path = true →
        env.pathExists (s.vectordb_path ++ "/index.faiss") = true →
        env.pathExists (s.vectordb_path ++ "/index.pkl") = false →
        load_vectorstore env (s, w) =
          ((s, { w with sleeps := w.sleeps ++ [1/2] }),
           .error (Exc.mk .retrievalError
             ("Failed after " ++ toString 2 ++ " attempts: " ++
              ("Required vector database file not found: " ++ s.vectordb_path ++
               "/index.pkl"))
             (some (Exc.mk .fileNotFoundError
               ("Required vector database file not found: " ++ s.vectordb_path ++
                "/index.pkl") none))))) := by
  refine ⟨?_, ?_, ?_⟩
  · intro env s w hvs hp1
    obtain ⟨p0, e0, a0, k0, st0, t0, semb, svs, sret, sini⟩ := s
    simp only at hvs hp1
    subst hvs
    simp only [load_vectorstore, retry_on_failure, retryAux, load_vectorstore_body,
      sleepR, retryExhausted, lastExcStr, Exc.str, Exc.msg, Exc.mk]
    simp [hp1, List.append_assoc]
  · intro env s w hvs hp1 hp2
    obtain ⟨p0, e0, a0, k0, st0, t0, semb, svs, sret, sini⟩ := s
    simp only at hvs hp1 hp2
    subst hvs
    simp only [load_vectorstore, retry_on_failure, retryAux, load_vectorstore_body,
      sleepR, retryExhausted, lastExcStr, Exc.str, Exc.msg, Exc.mk]
    simp [hp1, hp2, List.append_assoc]
  · intro env s w hvs hp1 hp2 hp3
    obtain ⟨p0, e0, a0, k0, st0, t0, semb, svs, sret, sini⟩ := s
    simp only at hvs hp1 hp2 hp3
    subst hvs
    simp only [load_vectorstore, retry_on_failure, retryAux, load_vectorstore_body,
      sleepR, retryExhausted, lastExcStr, Exc.str, Exc.msg, Exc.mk]
    simp [hp1, hp2, hp3, List.append_assoc]

/-- Witness for the amended C2 at a concrete empty filesystem. -/
theorem C2_notfound_amended_witness :
    sFresh._vectorstore = none ∧
    envNoIndex.pathExists sFresh.vectordb_path = false ∧
    load_vectorstore envNoIndex (sFresh, World.empty) =
      ((sFresh, { World.empty with sleeps := World.empty.sleeps ++ [1/2] }),
       .error (Exc.mk .retrievalError
         ("Failed after " ++ toString 2 ++ " attempts: " ++
          ("Vector database not found at: " ++ sFresh.vectordb_path ++
           ". Please run ingestion first."))
         (some (Exc.mk .fileNotFoundError
           ("Vector database not found at: " ++ sFresh.vectordb_path ++
            ". Please run ingestion first.") none)))) :=
  ⟨rfl, rfl, C2_notfound_amended.1 envNoIndex sFresh World.empty rfl rfl⟩

/-- C3: an empty-after-strip query, or an out-of-range `k`, makes
`retrieve_documents` raise a `ValueError` (not a `RetrievalError`) and
leaves the state — including every I/O counter — untouched: no embedding
call, no index load, no search. -/
theorem C3_validation_before_io :
    (∀ (env : Env) (s : VectorStoreRetriever) (w : World) (query : String)
        (k : Option Int), pyStrip query = "" →
        retrieve_documents env query k (s, w) =
          ((s, w), .error (Exc.mk .valueError "Query cannot be empty" none))) ∧
    (∀ (env : Env) (s : VectorStoreRetriever) (w : World) (query : String)
        (kv : Int), pyStrip query ≠ "" → (kv < 1 ∨ kv > 100) →
        retrieve_documents env query (some kv) (s, w) =
          ((s, w), .error (Exc.mk .valueError "k must be between 1 and 100" none))) := by
  constructor
  · intro env s w query k hq
    simp [retrieve_documents, hq]
  · intro env s w query kv hq hk
    simp only [retrieve_documents]
    rw [if_neg (by simpa using hq)]
    rw [if_pos hk]

/-- Witness for C3 at a whitespace-only query. -/
theorem C3_validation_before_io_witness :
    pyStrip "   " = "" ∧
    retrieve_documents envOk "   " (some 4) (sFresh, World.empty) =
      ((sFresh, World.empty),
       .error (Exc.mk .valueError "Query cannot be empty" none)) :=
  ⟨by decide, C3_validation_before_io.1 envOk sFresh World.empty "   " (some 4) (by decide)⟩

/-- C4: on a valid invocation (non-blank query, in-range `k`), every error
that `retrieve_documents` raises has class `retrievalError`: any exception
from retriever construction, index load or search is wrapped before it
escapes. -/
theorem C4_errors_wrapped (env : Env) (s : VectorStoreRetriever) (w : World)
    (query : String) (k : Option Int) (e : Exc)
    (hq : pyStrip query ≠ "")
    (hk : ∀ kv, k = some kv → 1 ≤ kv ∧ kv ≤ 100)
    (he : (retrieve_documents env query k (s, w)).2 = .error e) :
    e.cls = ExcClass.retrievalError := by
  cases k with
  | none =>
    simp only [retrieve_documents] at he
    rw [if_neg (by simpa using hq)] at he
    rcases h2 : retrieve_body env query none (s, w) with ⟨sw2, r⟩
    rw [h2] at he
    cases r with
    | ok d => simp [wrapTry] at he
    | error e0 =>
      simp only [wrapTry] at he
      injection he with he2
      rw [← he2]
      rfl
  | some kv =>
    have hkv := hk kv rfl
    simp only [retrieve_documents] at he
    rw [if_neg (by simpa using hq)] at he
    rw [if_neg (by omega)] at he
    rcases h2 : retrieve_body env query (some kv) (s, w) with ⟨sw2, r⟩
    rw [h2] at he
    cases r with
    | ok d => simp [wrapTry] at he
    | error e0 =>
      simp only [wrapTry] at he
      injection he with he2
      rw [← he2]
      rfl

/-- Witness for C4 at a concrete environment whose search always fails. -/
theorem C4_errors_wrapped_witness :
    pyStrip "question" ≠ "" ∧
    (retrieve_documents envSearchFail "question" none (sFresh, World.empty)).2 =
      .error (Exc.mk .retrievalError
        ("Failed to retrieve documents: " ++ "faiss blew up")
        (some (Exc.base .providerError "faiss blew up"))) ∧
    (Exc.mk .retrievalError
        ("Failed to retrieve documents: " ++ "faiss blew up")
        (some (Exc.base .providerError "faiss blew up"))).cls =
      ExcClass.retrievalError :=
  ⟨by decide, by decide,
    C4_errors_wrapped envSearchFail sFresh World.empty "question" none
      (Exc.mk .retrievalError
        ("Failed to retrieve documents: " ++ "faiss blew up")
        (some (Exc.base .providerError "faiss blew up")))
      (by decide) (by intro kv h; cases h) (by decide)⟩

/-- C6: on an initialized handle, a per-call `k` override differing from the
bound default routes the search through a temporary retriever configured
with the override, and leaves the whole shared object — bound `k`, cached
retriever, search type and everything else — exactly as it was; only the
search-call counter advances. -/
theorem C6_temp_override_no_mutation (env : Env) (s : VectorStoreRetriever)
    (w : World) (query : String) (kv : Int) (r : Retr) (v : VS)
    (hq : pyStrip query ≠ "") (h1 : 1 ≤ kv) (h2 : kv ≤ 100) (hne : kv ≠ s.k)
    (hr : s._retriever = some r) (hv : s._vectorstore = some v) :
    (retrieve_documents env query (some kv) (s, w)).1 =
      (s, { w with searchCalls := w.searchCalls + 1 }) ∧
    (∀ d, env.search w.searchCalls
        { vs := v, search_type := s.search_type, k := kv } query = .ok d →
      (retrieve_documents env query (some kv) (s, w)).2 = .ok d) ∧
    (∀ e, env.search w.searchCalls
        { vs := v, search_type := s.search_type, k := kv } query = .error e →
      (retrieve_documents env query (some kv) (s, w)).2 =
        .error (Exc.mk .retrievalError
          ("Failed to retrieve documents: " ++ e.str) (some e))) := by
  obtain ⟨p0, e0, a0, k0, st0, t0, semb, svs, sret, sini⟩ := s
  simp only at hr hv hne
  subst hr
  subst hv
  have hrange : ¬(kv < 1 ∨ kv > 100) := by omega
  have key : ∀ res, env.search w.searchCalls
      { vs := v, search_type := st0, k := kv } query = res →
      retrieve_documents env query (some kv)
        (⟨p0, e0, a0, k0, st0, t0, semb, some v, some r, sini⟩, w) =
        wrapTry ((⟨p0, e0, a0, k0, st0, t0, semb, some v, some r, sini⟩,
          { w with searchCalls := w.searchCalls + 1 }), res) := by
    intro res hres
    simp only [retrieve_documents]
    rw [if_neg (by simpa using hq), if_neg hrange]
    simp [retrieve_body, VectorStoreRetriever.get_retriever, stepSearch, hne, hres]
    rcases res with d | e <;> simp [wrapTry]
  rcases hs : env.search w.searchCalls
      { vs := v, search_type := st0, k := kv } query with e | d
  · rw [key (.error e) hs]
    refine ⟨rfl, ?_, ?_⟩
    · intro d hd
      simp at hd
    · intro e2 he2
      injection he2 with he3
      subst he3
      rfl
  · rw [key (.ok d) hs]
    refine ⟨rfl, ?_, ?_⟩
    · intro d2 hd2
      injection hd2 with hd3
      subst hd3
      rfl
    · intro e2 he2
      simp at he2

/-- Witness for C6 on the initialized fixture with override `k = 10`. -/
theorem C6_temp_override_no_mutation_witness :
    pyStrip "question" ≠ "" ∧ (1 : Int) ≤ 10 ∧ (10 : Int) ≤ 100 ∧
    (10 : Int) ≠ sReady.k ∧
    sReady._retriever = some retrW ∧ sReady._vectorstore = some vsW ∧
    ((retrieve_documents envOk "question" (some 10) (sReady, World.empty)).1 =
      (sReady, { World.empty with searchCalls := World.empty.searchCalls + 1 }) ∧
    (∀ d, envOk.search World.empty.searchCalls
        { vs := vsW, search_type := sReady.search_type, k := 10 } "question" = .ok d →
      (retrieve_documents envOk "question" (some 10) (sReady, World.empty)).2 = .ok d) ∧
    (∀ e, envOk.search World.empty.searchCalls
        { vs := vsW, search_type := sReady.search_type, k := 10 } "question" = .error e →
      (retrieve_documents envOk "question" (some 10) (sReady, World.empty)).2 =
        .error (Exc.mk .retrievalError
          ("Failed to retrieve documents: " ++ e.str) (some e)))) :=
  ⟨by decide, by decide, by decide, by decide, rfl, rfl,
   C6_temp_override_no_mutation envOk sReady World.empty "question" 10 retrW vsW
     (by decide) (by decide) (by decide) (by decide) rfl rfl⟩

/-- C10: the constructor performs no range validation on `k`: any non-zero
`k` (for example 500) is bound as-is, while `k = 0` is silently replaced by
the configured `RETRIEVER_K` (Python `k or settings.RETRIEVER_K`); only the
per-call override in `retrieve_documents` is range-checked. -/
theorem C10_ctor_k_unchecked (st : Settings) (k : Int)
    (h : st.GEMINI_API_KEY ≠ "") :
    (k ≠ 0 → ∃ r, VectorStoreRetriever.init st none none none k "similarity" none =
        .ok r ∧ r.k = k) ∧
    (k = 0 → ∃ r, VectorStoreRetriever.init st none none none k "similarity" none =
        .ok r ∧ r.k = st.RETRIEVER_K) ∧
    (∀ (env : Env) (s : VectorStoreRetriever) (w : World) (q : String) (kv : Int),
        pyStrip q ≠ "" → (kv < 1 ∨ kv > 100) →
        (retrieve_documents env q (some kv) (s, w)).2 =
          .error (Exc.mk .valueError "k must be between 1 and 100" none)) := by
  refine ⟨?_, ?_, ?_⟩
  · intro hk
    simp only [VectorStoreRetriever.init, pyOrStr, if_neg h]
    exact ⟨_, rfl, by simp [pyOrInt, hk]⟩
  · intro hk
    subst hk
    simp only [VectorStoreRetriever.init, pyOrStr, if_neg h]
    exact ⟨_, rfl, by simp [pyOrInt]⟩
  · intro env s w q kv hq hk
    simp only [retrieve_documents]
    rw [if_neg (by simpa using hq)]
    rw [if_pos hk]

/-- Witness for C10 with the out-of-range `k = 500`. -/
theorem C10_ctor_k_unchecked_witness :
    stOk.GEMINI_API_KEY ≠ "" ∧
    (((500 : Int) ≠ 0 → ∃ r, VectorStoreRetriever.init stOk none none none 500 "similarity" none =
        .ok r ∧ r.k = 500) ∧
    ((500 : Int) = 0 → ∃ r, VectorStoreRetriever.init stOk none none none 500 "similarity" none =
        .ok r ∧ r.k = stOk.RETRIEVER_K) ∧
    (∀ (env : Env) (s : VectorStoreRetriever) (w : World) (q : String) (kv : Int),
        pyStrip q ≠ "" → (kv < 1 ∨ kv > 100) →
        (retrieve_documents env q (some kv) (s, w)).2 =
          .error (Exc.mk .valueError "k must be between 1 and 100" none))) :=
  ⟨by decide, C10_ctor_k_unchecked stOk 500 (by decide)⟩

def schedC9 : List (Fin 2) := [0,0,0,0,0,0,0,1,1,1,0,0,0,1,1,1]

/-- C9 counterexample: a concrete interleaving of two first-use callers of
the module-level `get_retriever()` performs the underlying index load twice
(the load runs outside the lock), refuting "exactly one underlying
index-load"; the instance constructor still ran only once. -/
theorem C9_counterexample :
    (crun stOk envOk schedC9 cInit).world.loadCalls = 2 ∧
    (crun stOk envOk schedC9 cInit).world.loadCalls ≠ 1 ∧
    (crun stOk envOk schedC9 cInit).world.ctorCalls = 1 := by
  refine ⟨by decide, by decide, by decide⟩

def lockedPC : TPC → Bool
  | .g2 => true
  | .g3 => true
  | .g4 => true
  | _ => false

def CInv (c : CState) : Prop :=
  (c.inst = none → c.world.ctorCalls = 0) ∧
  c.world.ctorCalls ≤ 1 ∧
  (∀ t : Fin 2, lockedPC (c.pcs t) = true → c.lock = some t) ∧
  (∀ t : Fin 2, c.pcs t = TPC.g3 → c.inst = none)

theorem cInit_inv : CInv cInit := by
  refine ⟨fun _ => rfl, by decide, ?_, ?_⟩ <;> intro t h <;> simp [cInit, lockedPC] at h

theorem inv_of_goto (c : CState) (h : CInv c) (t : Fin 2) (p : TPC)
    (hlock : lockedPC p = false) (hg3 : p ≠ TPC.g3) : CInv (cGoto t p c) := by
  obtain ⟨h1, h2, h3, h4⟩ := h
  refine ⟨h1, h2, ?_, ?_⟩
  · intro u hu
    simp only [cGoto, setPC] at hu ⊢
    by_cases he : u = t
    · subst he
      rw [if_pos rfl] at hu
      rw [hlock] at hu
      cases hu
    · rw [if_neg he] at hu
      exact h3 u hu
  · intro u hu
    simp only [cGoto, setPC] at hu ⊢
    by_cases he : u = t
    · subst he
      rw [if_pos rfl] at hu
      exact absurd hu hg3
    · rw [if_neg he] at hu
      exact h4 u hu

theorem inv_of_raise (c : CState) (h : CInv c) (t : Fin 2) (e : Exc) :
    CInv (cRaise t e c) :=
  inv_of_goto c h t (.ret (.error e)) rfl (fun hx => TPC.noConfusion hx)

theorem inv_of_return (c : CState) (h : CInv c) (t : Fin 2) (r : Retr) :
    CInv (cReturn t r c) :=
  inv_of_goto c h t (.ret (.ok r)) rfl (fun hx => TPC.noConfusion hx)

theorem inv_of_goto_mod (c : CState) (h : CInv c) (t : Fin 2) (p : TPC)
    (hlock : lockedPC p = false) (hg3 : p ≠ TPC.g3)
    (i : VectorStoreRetriever) (hins : c.inst = some i)
    (i' : VectorStoreRetriever) (w' : World)
    (hw : w'.ctorCalls = c.world.ctorCalls) (ls : Fin 2 → Option VS) :
    CInv (cGoto t p { c with inst := some i', world := w', locals := ls }) := by
  obtain ⟨h1, h2, h3, h4⟩ := h
  refine ⟨?_, ?_, ?_, ?_⟩
  · intro hn
    simp only [cGoto] at hn
    cases hn
  · show w'.ctorCalls ≤ 1
    rw [hw]
    exact h2
  · intro u hu
    simp only [cGoto, setPC] at hu ⊢
    by_cases he : u = t
    · subst he
      rw [if_pos rfl] at hu
      rw [hlock] at hu
      cases hu
    · rw [if_neg he] at hu
      exact h3 u hu
  · intro u hu
    simp only [cGoto, setPC] at hu ⊢
    by_cases he : u = t
    · subst he
      rw [if_pos rfl] at hu
      exact absurd hu hg3
    · rw [if_neg he] at hu
      have h4u := h4 u hu
      rw [hins] at h4u
      cases h4u

theorem inv_of_return_mod (c : CState) (h : CInv c) (t : Fin 2) (r : Retr)
    (i : VectorStoreRetriever) (hins : c.inst = some i)
    (i' : VectorStoreRetriever) :
    CInv (cReturn t r { c with inst := some i' }) :=
  inv_of_goto_mod c h t (.ret (.ok r)) rfl (fun hx => TPC.noConfusion hx)
    i hins i' c.world rfl c.locals

theorem cstep_inv (st : Settings) (env : Env)
    (hctor : ∃ i, VectorStoreRetriever.init st none none none 4 "similarity" none =
      .ok i)
    (t : Fin 2) (c : CState) (h : CInv c) : CInv (cstep st env t c) := by
  obtain ⟨i0, hi0⟩ := hctor
  obtain ⟨h1, h2, h3, h4⟩ := h
  have h : CInv c := ⟨h1, h2, h3, h4⟩
  cases hpc : c.pcs t with
  | g0 =>
    simp only [cstep, hpc]
    split
    · exact inv_of_goto c h t .m0 rfl (fun hx => TPC.noConfusion hx)
    · exact inv_of_goto c h t .g1 rfl (fun hx => TPC.noConfusion hx)
  | g1 =>
    simp only [cstep, hpc]
    cases hl : c.lock with
    | some u => exact h
    | none =>
      refine ⟨h1, h2, ?_, ?_⟩
      · intro u hu
        simp only [cGoto, setPC] at hu ⊢
        by_cases he : u = t
        · subst he
          rfl
        · rw [if_neg he] at hu
          have h3u := h3 u hu
          rw [hl] at h3u
          cases h3u
      · intro u hu
        simp only [cGoto, setPC] at hu
        by_cases he : u = t
        · subst he
          rw [if_pos rfl] at hu
          cases hu
        · rw [if_neg he] at hu
          exact h4 u hu
  | g2 =>
    have hlk : c.lock = some t := h3 t (by rw [hpc]; rfl)
    simp only [cstep, hpc]
    split
    · refine ⟨h1, h2, ?_, ?_⟩
      · intro u hu
        simp only [cGoto, setPC] at hu ⊢
        by_cases he : u = t
        · subst he
          exact hlk
        · rw [if_neg he] at hu
          exact h3 u hu
      · intro u hu
        simp only [cGoto, setPC] at hu
        by_cases he : u = t
        · subst he
          rw [if_pos rfl] at hu
          cases hu
        · rw [if_neg he] at hu
          exact h4 u hu
    · next hins =>
      have hin : c.inst = none := by
        cases hx : c.inst with
        | none => rfl
        | some i => rw [hx] at hins; simp at hins
      refine ⟨h1, h2, ?_, ?_⟩
      · intro u hu
        simp only [cGoto, setPC] at hu ⊢
        by_cases he : u = t
        · subst he
          exact hlk
        · rw [if_neg he] at hu
          exact h3 u hu
      · intro u hu
        exact hin
  | g3 =>
    have hlk : c.lock = some t := h3 t (by rw [hpc]; rfl)
    have hin : c.inst = none := h4 t hpc
    have hc0 : c.world.ctorCalls = 0 := h1 hin
    simp only [cstep, hpc, hi0]
    refine ⟨?_, ?_, ?_, ?_⟩
    · intro hn
      simp only [cGoto] at hn
      cases hn
    · show c.world.ctorCalls + 1 ≤ 1
      omega
    · intro u hu
      simp only [cGoto, setPC] at hu ⊢
      by_cases he : u = t
      · subst he
        exact hlk
      · rw [if_neg he] at hu
        have h3u := h3 u hu
        rw [hlk] at h3u
        injection h3u with hh
        exact absurd hh.symm he
    · intro u hu
      simp only [cGoto, setPC] at hu ⊢
      by_cases he : u = t
      · subst he
        rw [if_pos rfl] at hu
        cases hu
      · rw [if_neg he] at hu
        have h3u := h3 u (by rw [hu]; rfl)
        rw [hlk] at h3u
        injection h3u with hh
        exact absurd hh.symm he
  | g4 =>
    have hlk : c.lock = some t := h3 t (by rw [hpc]; rfl)
    simp only [cstep, hpc]
    refine ⟨h1, h2, ?_, ?_⟩
    · intro u hu
      simp only [cGoto, setPC] at hu
      by_cases he : u = t
      · subst he
        rw [if_pos rfl] at hu
        cases hu
      · rw [if_neg he] at hu
        have h3u := h3 u hu
        rw [hlk] at h3u
        injection h3u with hh
        exact absurd hh.symm he
    · intro u hu
      simp only [cGoto, setPC] at hu
      by_cases he : u = t
      · subst he
        rw [if_pos rfl] at hu
        cases hu
      · rw [if_neg he] at hu
        exact h4 u hu
  | m0 =>
    simp only [cstep, hpc]
    cases hins : c.inst with
    | none => exact inv_of_raise c h t cMissing
    | some i =>
      simp only [cstepM0]
      cases hr : i._retriever with
      | some r => exact inv_of_return c h t r
      | none => exact inv_of_goto c h t .m1 rfl (fun hx => TPC.noConfusion hx)
  | m1 =>
    simp only [cstep, hpc]
    cases hins : c.inst with
    | none => exact inv_of_raise c h t cMissing
    | some i =>
      simp only [cstepM1]
      cases hv : i._vectorstore with
      | some v =>
        exact inv_of_goto { c with locals := setLocal t (some v) c.locals } h t
          .m4 rfl (fun hx => TPC.noConfusion hx)
      | none => exact inv_of_goto c h t .m2 rfl (fun hx => TPC.noConfusion hx)
  | m2 =>
    simp only [cstep, hpc]
    cases hins : c.inst with
    | none => exact inv_of_raise c h t cMissing
    | some i =>
      simp only [cstepM2]
      split
      · exact inv_of_raise c h t _
      · split
        · exact inv_of_raise c h t _
        · split
          · exact inv_of_raise c h t _
          · cases he : i._embeddings with
            | some e => exact inv_of_goto c h t .m3 rfl (fun hx => TPC.noConfusion hx)
            | none =>
              cases hemb : env.embCtor c.world.embCalls with
              | ok e =>
                exact inv_of_goto_mod c h t .m3 rfl (fun hx => TPC.noConfusion hx)
                  i hins _ _ rfl c.locals
              | error e =>
                exact inv_of_raise { c with
                  world := { c.world with embCalls := c.world.embCalls + 1 } } h t _
  | m3 =>
    simp only [cstep, hpc]
    cases hins : c.inst with
    | none => exact inv_of_raise c h t cMissing
    | some i =>
      simp only [cstepM3]
      cases hld : env.faissLoad c.world.loadCalls with
      | ok v =>
        exact inv_of_goto_mod c h t .m4 rfl (fun hx => TPC.noConfusion hx)
          i hins _ _ rfl (setLocal t (some v) c.locals)
      | error e =>
        exact inv_of_raise { c with
          world := { c.world with loadCalls := c.world.loadCalls + 1 } } h t _
  | m4 =>
    simp only [cstep, hpc]
    cases hins : c.inst with
    | none => exact inv_of_raise c h t cMissing
    | some i =>
      simp only [cstepM4]
      cases hloc : c.locals t with
      | none => exact inv_of_raise c h t _
      | some v => exact inv_of_return_mod c h t _ i hins _
  | ret r =>
    simp only [cstep, hpc]
    exact h

theorem crun_inv (st : Settings) (env : Env)
    (hctor : ∃ i, VectorStoreRetriever.init st none none none 4 "similarity" none =
      .ok i) :
    ∀ (sched : List (Fin 2)) (c : CState), CInv c → CInv (crun st env sched c) := by
  intro sched
  induction sched with
  | nil => intro c hc; exact hc
  | cons t rest ih =>
    intro c hc
    exact ih (cstep st env t c) (cstep_inv st env hctor t c hc)

/-- C9 amended: the double-checked lock makes instance construction
single-flight — under every schedule, when construction succeeds, the
constructor runs at most once — but the retriever/index initialization runs
outside the lock, so some schedules perform the index load twice. -/
theorem C9_amended :
    (∀ (st : Settings) (env : Env) (sched : List (Fin 2)),
        (∃ i, VectorStoreRetriever.init st none none none 4 "similarity" none =
          .ok i) →
        (crun st env sched cInit).world.ctorCalls ≤ 1) ∧
    (∃ sched : List (Fin 2), (crun stOk envOk sched cInit).world.loadCalls = 2) := by
  constructor
  · intro st env sched hctor
    exact (crun_inv st env hctor sched cInit cInit_inv).2.1
  · exact ⟨schedC9, by decide⟩

/-- Witness for the amended C9 at concrete settings, environment and
schedule. -/
theorem C9_amended_witness :
    (∃ i, VectorStoreRetriever.init stOk none none none 4 "similarity" none =
      .ok i) ∧
    (crun stOk envOk schedC9 cInit).world.ctorCalls ≤ 1 :=
  ⟨⟨_, rfl⟩, C9_amended.1 stOk envOk schedC9 ⟨_, rfl⟩⟩

/-- A built RAG chain fixture. -/
def chainW : Chain := { retriever := retrW, llm := ⟨0⟩ }

/-- A chain invocation that answers successfully. -/
def invokeOkW : String → Except Exc ChainOutput :=
  fun _ => .ok [("answer", "Use the reset link.")]

/-- C5 counterexample: a `/chat` request with an empty question is NOT
rejected with 400 and an `error` field: question validation lives in the
pydantic request model, so FastAPI answers 422 with a `detail` field (the
registered `ValueError` handler is never consulted); there is also no
`answer` field. -/
theorem C5_counterexample :
    (chat_endpoint (some chainW) invokeOkW "").status = 422 ∧
    (chat_endpoint (some chainW) invokeOkW "").status ≠ 400 ∧
    "error" ∉ (chat_endpoint (some chainW) invokeOkW "").keys ∧
    "answer" ∉ (chat_endpoint (some chainW) invokeOkW "").keys := by
  refine ⟨by decide, by decide, by decide, by decide⟩

/-- C5 amended: a `/chat` request whose question is empty after stripping
whitespace is rejected by FastAPI request validation with status 422, and
the response body has a single `detail` field — no `answer` field and no
`error` field. -/
theorem C5_amended (chain : Option Chain)
    (invoke : String → Except Exc ChainOutput) (raw : String)
    (h : pyStrip raw = "") :
    chat_endpoint chain invoke raw =
      { status := 422, body := [("detail", "request validation failed")] } ∧
    "answer" ∉ (chat_endpoint chain invoke raw).keys ∧
    "error" ∉ (chat_endpoint chain invoke raw).keys := by
  have hp : ∃ e, parse_chat_question raw = .error e := by
    simp only [parse_chat_question]
    split
    · exact ⟨_, rfl⟩
    · split
      · exact ⟨_, rfl⟩
      · exact ⟨_, rfl⟩
  obtain ⟨e, he⟩ := hp
  have hmain : chat_endpoint chain invoke raw =
      { status := 422, body := [("detail", "request validation failed")] } := by
    simp [chat_endpoint, he]
  refine ⟨hmain, ?_, ?_⟩ <;> rw [hmain] <;> decide

/-- Witness for the amended C5 at a whitespace-only question. -/
theorem C5_amended_witness :
    pyStrip "   " = "" ∧
    (chat_endpoint (some chainW) invokeOkW "   " =
      { status := 422, body := [("detail", "request validation failed")] } ∧
    "answer" ∉ (chat_endpoint (some chainW) invokeOkW "   ").keys ∧
    "error" ∉ (chat_endpoint (some chainW) invokeOkW "   ").keys) :=
  ⟨by decide, C5_amended (some chainW) invokeOkW "   " (by decide)⟩

/-- C7 counterexample: with a present credential but `RETRIEVER_K = 500`
(outside the documented 1-100 range), settings validation detects the
configuration error, yet startup succeeds and the process accepts traffic —
the module-level try/except only logs the validation failure as a warning. -/
theorem C7_counterexample :
    Settings.validate stBadK envOk.pathExists =
      .error (Exc.mk .valueError
        ("Configuration validation failed:\n" ++
         "  - RETRIEVER_K must be between 1 and 100") none) ∧
    (app_start stBadK envOk).2 = .ok () := by
  constructor
  · decide
  · decide

/-- C7 amended: a missing credential is fatal at startup — lifespan
initialization raises and the process does not accept traffic — but
invalid numeric ranges detected by settings validation are only logged as a
warning at import, and the process still starts when retriever and LLM
initialization succeed. -/
theorem C7_amended :
    (∀ (st : Settings) (env : Env), st.GEMINI_API_KEY = "" →
        (app_start st env).2 =
          .error (Exc.mk .retrievalError
            ("Failed to initialize retriever: " ++
             "API key is required for embeddings")
            (some (Exc.mk .valueError "API key is required for embeddings" none)))) ∧
    (Settings.validate stBadK envOk.pathExists ≠ .ok () ∧
      (app_start stBadK envOk).2 = .ok ()) := by
  constructor
  · intro st env hkey
    simp [app_start, lifespan_startup, init_rag_chain, get_retriever,
      VectorStoreRetriever.init, pyOrStr, hkey, Exc.mk, Exc.str, Exc.msg,
      settings_validation_warning]
  · exact ⟨by decide, by decide⟩

/-- Settings fixture with the credential absent. -/
def stNoKey : Settings := { stOk with GEMINI_API_KEY := "" }

/-- Witness for the amended C7 at a credential-less configuration. -/
theorem C7_amended_witness :
    stNoKey.GEMINI_API_KEY = "" ∧
    (app_start stNoKey envOk).2 =
      .error (Exc.mk .retrievalError
        ("Failed to initialize retriever: " ++
         "API key is required for embeddings")
        (some (Exc.mk .valueError "API key is required for embeddings" none))) :=
  ⟨rfl, C7_amended.1 stNoKey envOk rfl⟩

/-- C8: on every state the running app can reach (whenever the chain was
built, the singleton exists with its retriever cached), `/health` returns
its status from {healthy, degraded, unhealthy} and leaves the whole module
state unchanged, and `/metrics` — a pure function of the state — reports a
status from the same set. -/
theorem C8_health_metrics_readonly (st : Settings) (env : Env)
    (now start : Rat) (g : AppGlobal)
    (hreach : ∀ cch, g.retrieval_chain = some cch →
      ∃ i r, g.inst = some i ∧ i._retriever = some r) :
    (health_check st env g).1 = g ∧
    (health_check st env g).2.status ∈ (["healthy", "degraded", "unhealthy"] : List String) ∧
    (metrics st now start g).status ∈ (["healthy", "degraded", "unhealthy"] : List String) := by
  obtain ⟨gc, gi, gw⟩ := g
  cases hc : gc with
  | none =>
    refine ⟨?_, ?_, ?_⟩
    · simp [health_check, hc]
    · simp [health_check, hc]
    · simp [metrics, hc]
  | some cch =>
    obtain ⟨i, r, hi, hr⟩ := hreach cch (by rw [hc])
    simp only at hi
    subst hi
    obtain ⟨p0, e0, a0, k0, st0, t0, semb, svs, sret, sini⟩ := i
    simp only at hr
    subst hr
    refine ⟨?_, ?_, ?_⟩
    · simp [health_check, hc, get_retriever, VectorStoreRetriever.get_retriever]
    · simp [health_check, hc, get_retriever, VectorStoreRetriever.get_retriever]
    · simp [metrics, hc]

/-- Witness for C8 on the initialized app state. -/
theorem C8_health_metrics_readonly_witness :
    (∀ cch, (AppGlobal.mk (some chainW) (some sReady) World.empty).retrieval_chain =
        some cch →
      ∃ i r, (AppGlobal.mk (some chainW) (some sReady) World.empty).inst = some i ∧
        i._retriever = some r) ∧
    ((health_check stOk envOk (AppGlobal.mk (some chainW) (some sReady) World.empty)).1 =
      AppGlobal.mk (some chainW) (some sReady) World.empty ∧
    (health_check stOk envOk (AppGlobal.mk (some chainW) (some sReady) World.empty)).2.status ∈
      (["healthy", "degraded", "unhealthy"] : List String) ∧
    (metrics stOk 5 1 (AppGlobal.mk (some chainW) (some sReady) World.empty)).status ∈
      (["healthy", "degraded", "unhealthy"] : List String)) :=
  ⟨fun _ _ => ⟨sReady, retrW, rfl, rfl⟩,
   C8_health_metrics_readonly stOk envOk 5 1
     (AppGlobal.mk (some chainW) (some sReady) World.empty)
     (fun _ _ => ⟨sReady, retrW, rfl, rfl⟩)⟩

end ChatBot
